import Mathlib

/-!
# AppId inspector (`network_inspectors/appid/appid_inspector.cc`)

A shallow embedding of the per-thread entry points of the AppId inspector:
`add_appid_to_packet_trace`, `AppIdInspector::tinit`, `AppIdInspector::tterm`,
`AppIdInspector::eval` and `sslAppGroupIdLookup`.

The file under study is glue: almost every statement is a call into another
translation unit.  The embedding therefore threads a machine state through each
function and records every outgoing call, in program order, in a call log.
Functions of other translation units are parameters (`Collaborators`); the
RAII profiler object of `eval` (`Profile profile(appidPerfStats)`) measures
elapsed time and is left out.
-/

namespace Appid

/-! ## Data model -/

/-- `AppId` is a 32-bit signed integer in the source; ids are only compared and printed. -/
abbrev AppId := Int

/-- `APP_ID_NONE`, the "none" identity of `application_ids.h` (not part of this file); the
results below hold for any value of it. -/
def APP_ID_NONE : AppId := 0

/-- `PacketTracer::TracerMute`, the handle a module gets from `PacketTracer::get_mute`. -/
abbrev TracerMute := Nat

/-- A flow is identified by an opaque handle (`Flow*` / `Flow&` in the source). -/
abbrev Flow := Nat

/-- The two fields of `Packet` that matter here: the flow pointer (`none` is the null
pointer) and the remaining contents, which this file never reads. -/
structure Packet where
  flow : Option Flow
  data : List Nat
  deriving DecidableEq, Repr

/-- `AppIdPegCounts::DiscoveryPegs`.  Only `PACKETS` and `IGNORED_PACKETS` are named in
this file; `OTHER n` stands for the pegs declared elsewhere. -/
inductive DiscoveryPegs
  | PACKETS
  | IGNORED_PACKETS
  | OTHER (n : Nat)
  deriving DecidableEq, Repr

/-- `AppIdModuleConfig`, restricted to the field `tinit` reads. -/
structure AppIdModuleConfig where
  log_all_sessions : Bool
  deriving DecidableEq, Repr

/-- `AppIdConfig`; `mod_config` is a pointer and may be null. -/
structure AppIdConfig where
  mod_config : Option AppIdModuleConfig
  deriving DecidableEq, Repr

/-- The members of `AppIdInspector` used by the per-thread entry points.  `active_config`
is set by `configure` (line 107) before any thread runs `tinit`. -/
structure AppIdInspector where
  config : AppIdModuleConfig
  active_config : AppIdConfig
  deriving DecidableEq, Repr

/-- The object behind the thread-local `appidDebug` pointer. -/
structure AppIdDebug where
  enabled : Bool
  deriving DecidableEq, Repr

/-- The member function `AppIdDebug::set_enabled`. -/
def AppIdDebug.set_enabled (enable : Bool) (d : AppIdDebug) : AppIdDebug :=
  { d with enabled := enable }

/-- Every call that leaves `appid_inspector.cc` from the embedded functions. -/
inductive Call
  | PacketTracer_get_mute
  | AppIdStatistics_initialize_manager
  | HostPortCache_initialize
  | AppIdServiceState_initialize
  | init_appid_forecast
  | HttpPatternMatchers_get_instance
  | AppIdDiscovery_initialize_plugins
  | init_length_app_cache
  | LuaDetectorManager_initialize
  | finalize_service_port_patterns
  | finalize_client_port_patterns
  | AppIdDiscovery_finalize_plugins
  | HttpPatternMatchers_finalize
  | ssl_detector_process_patterns
  | dns_host_detector_process_patterns
  | new_AppIdDebug
  | AppIdDebug_set_enabled (b : Bool)
  | AppIdStatistics_cleanup
  | HostPortCache_terminate
  | clean_appid_forecast
  | service_dns_host_clean
  | service_ssl_clean
  | free_length_app_cache
  | AppIdServiceState_clean
  | LuaDetectorManager_terminate
  | AppIdDiscovery_release_plugins
  | delete_HttpPatternMatchers
  | delete_appidDebug
  | inc_disco_peg (peg : DiscoveryPegs)
  | do_application_discovery (p : Packet)
  | PacketTracer_active
  | get_appid_session (flow : Flow)
  | get_application_ids
  | get_application_name (id : AppId)
  | PacketTracer_log (mute : TracerMute) (line : String)
  deriving DecidableEq, Repr

/-- Modelled from the spec: the per-thread subsystems whose `initialize`/`terminate`
functions live in other translation units.  The spec describes them as state "with
explicit init/teardown lifecycle"; each flag says whether the subsystem currently holds its
per-thread resources. -/
structure Subsystems where
  stats_manager : Bool
  host_port_cache : Bool
  service_state : Bool
  forecast : Bool
  http_matchers : Bool
  plugins : Bool
  length_cache : Bool
  lua_detectors : Bool
  ssl_patterns : Bool
  dns_patterns : Bool
  deriving DecidableEq, Repr

/-- The state in which no per-thread subsystem is initialised. -/
def Subsystems.released : Subsystems :=
  ⟨false, false, false, false, false, false, false, false, false, false⟩

/-- The state in which every per-thread subsystem is initialised. -/
def Subsystems.initialised : Subsystems :=
  ⟨true, true, true, true, true, true, true, true, true, true⟩

/-- State owned by the collaborators: the peg counters of `AppIdPegCounts` and everything
else (`ext`: flow sessions, caches, detector tables, the packet tracer). -/
structure World (σ : Type) where
  pegs : DiscoveryPegs → Nat
  ext : σ

/-- The per-thread state seen by this file. -/
structure ThreadState (σ : Type) where
  world : World σ
  /-- Line 56: `static THREAD_LOCAL PacketTracer::TracerMute appid_mute`. -/
  appid_mute : TracerMute
  /-- The thread-local `appidDebug` pointer; `none` is `nullptr`. -/
  appidDebug : Option AppIdDebug
  subsystems : Subsystems

/-- A thread state together with the log of outgoing calls made so far. -/
structure Machine (σ : Type) where
  st : ThreadState σ
  calls : List Call

/-- Functions of other translation units whose results steer the code of this file.
`Sess` is `AppIdSession`. -/
structure Collaborators (σ Sess : Type) where
  /-- `PacketTracer::get_mute()`: hands out a mute handle. -/
  get_mute : σ → TracerMute × σ
  /-- `PacketTracer::active()`. -/
  active : σ → Bool
  /-- `PacketTracer::log(mute, fmt, ...)`, applied to the formatted line. -/
  log : TracerMute → String → σ → σ
  /-- `AppIdDiscovery::do_application_discovery(p, inspector)`. -/
  do_application_discovery : Packet → AppIdInspector → World σ → World σ
  /-- `appid_api.get_appid_session(flow)`; `none` is the null pointer. -/
  get_appid_session : Flow → σ → Option Sess
  /-- `session->get_application_ids(service, client, payload, misc)`. -/
  get_application_ids : Sess → AppId × AppId × AppId × AppId
  /-- `appid_api.get_application_name(id)`; `none` is the null pointer. -/
  get_application_name : σ → AppId → Option String
  /-- The object `new AppIdDebug()` constructs. -/
  new_AppIdDebug : AppIdDebug

variable {σ Sess : Type}

/-! ## Primitive steps -/

/-- Append one outgoing call to the log. -/
def Machine.call (c : Call) (m : Machine σ) : Machine σ :=
  { m with calls := m.calls ++ [c] }

/-- Replace the collaborator-owned part of the state. -/
def Machine.set_world (w : World σ) (m : Machine σ) : Machine σ :=
  { m with st := { m.st with world := w } }

/-- Assign the thread-local `appid_mute`. -/
def Machine.set_appid_mute (mute : TracerMute) (m : Machine σ) : Machine σ :=
  { m with st := { m.st with appid_mute := mute } }

/-- Assign the thread-local `appidDebug` pointer. -/
def Machine.set_appidDebug (d : Option AppIdDebug) (m : Machine σ) : Machine σ :=
  { m with st := { m.st with appidDebug := d } }

/-- Modelled from the spec: `AppIdPegCounts::inc_disco_peg(peg)` (declared in
`appid_peg_counts.h`, not part of this file) adds one to the named monotonic counter and
leaves the others alone. -/
def inc_disco_peg (peg : DiscoveryPegs) (m : Machine σ) : Machine σ :=
  let w := m.st.world
  let w1 : World σ := { w with pegs := fun k => if k = peg then w.pegs k + 1 else w.pegs k }
  (m.set_world w1).call (Call.inc_disco_peg peg)

/-- Modelled from the spec: a subsystem's per-thread `initialize`/`terminate` call
(all defined outside this file) switches its lifecycle flag and is logged. -/
def lifecycle (c : Call) (f : Subsystems → Subsystems) (m : Machine σ) : Machine σ :=
  ({ m with st := { m.st with subsystems := f m.st.subsystems } }).call c

/-- The `printf` conversion `%s(%d)` applied to a nullable name and an id:
`(name ? name : "")` followed by the id in decimal between parentheses. -/
def fmt_name_id (name : Option String) (id : AppId) : String :=
  (match name with
   | some s => s
   | none => "") ++ "(" ++ toString id ++ ")"

/-- The format string of line 79 applied to its eight arguments. -/
def fmt_appid_line (service_app_name : Option String) (service_id : AppId)
    (client_app_name : Option String) (client_id : AppId)
    (payload_app_name : Option String) (payload_id : AppId)
    (misc_name : Option String) (misc_id : AppId) : String :=
  "AppID: service: " ++ fmt_name_id service_app_name service_id ++
  ", client: " ++ fmt_name_id client_app_name client_id ++
  ", payload: " ++ fmt_name_id payload_app_name payload_id ++
  ", misc: " ++ fmt_name_id misc_name misc_id ++ "\n"

/-! ## The functions of `appid_inspector.cc` -/

/-- Lines 65-85: look the session of the flow up; if there is one, read its four ids,
resolve the four names (line 73-76, in the order service, client, payload, misc) and hand
one formatted line to `PacketTracer::log` under `appid_mute`; if there is none, do
nothing. -/
def add_appid_to_packet_trace (C : Collaborators σ Sess) (flow : Flow)
    (m : Machine σ) : Machine σ :=
  let m := m.call (Call.get_appid_session flow)
  match C.get_appid_session flow m.st.world.ext with
  | some session =>
    let m := m.call Call.get_application_ids
    let (service_id, client_id, payload_id, misc_id) := C.get_application_ids session
    let names := C.get_application_name m.st.world.ext
    let service_app_name := names service_id
    let m := m.call (Call.get_application_name service_id)
    let client_app_name := names client_id
    let m := m.call (Call.get_application_name client_id)
    let payload_app_name := names payload_id
    let m := m.call (Call.get_application_name payload_id)
    let misc_name := names misc_id
    let m := m.call (Call.get_application_name misc_id)
    let line := fmt_appid_line service_app_name service_id client_app_name client_id
      payload_app_name payload_id misc_name misc_id
    let w := m.st.world
    (m.set_world { w with ext := C.log m.st.appid_mute line w.ext }).call
      (Call.PacketTracer_log m.st.appid_mute line)
  | none => m

/-- Lines 142-163, one `let` per statement, in source order.  The last statement
(lines 161-162) enables the debug object when `mod_config` is non-null and has
`log_all_sessions` set. -/
def tinit (C : Collaborators σ Sess) (self : AppIdInspector) (m : Machine σ) : Machine σ :=
  let w := m.st.world
  let (mute, ext1) := C.get_mute w.ext
  let m := ((m.set_world { w with ext := ext1 }).set_appid_mute mute).call
    Call.PacketTracer_get_mute
  let m := lifecycle Call.AppIdStatistics_initialize_manager
    (fun s => { s with stats_manager := true }) m
  let m := lifecycle Call.HostPortCache_initialize (fun s => { s with host_port_cache := true }) m
  let m := lifecycle Call.AppIdServiceState_initialize (fun s => { s with service_state := true }) m
  let m := lifecycle Call.init_appid_forecast (fun s => { s with forecast := true }) m
  let m := lifecycle Call.HttpPatternMatchers_get_instance
    (fun s => { s with http_matchers := true }) m
  let m := lifecycle Call.AppIdDiscovery_initialize_plugins (fun s => { s with plugins := true }) m
  let m := lifecycle Call.init_length_app_cache (fun s => { s with length_cache := true }) m
  let m := lifecycle Call.LuaDetectorManager_initialize (fun s => { s with lua_detectors := true }) m
  let m := m.call Call.finalize_service_port_patterns
  let m := m.call Call.finalize_client_port_patterns
  let m := m.call Call.AppIdDiscovery_finalize_plugins
  let m := m.call Call.HttpPatternMatchers_finalize
  let m := lifecycle Call.ssl_detector_process_patterns (fun s => { s with ssl_patterns := true }) m
  let m := lifecycle Call.dns_host_detector_process_patterns
    (fun s => { s with dns_patterns := true }) m
  let m := (m.set_appidDebug (some C.new_AppIdDebug)).call Call.new_AppIdDebug
  match self.active_config.mod_config with
  | some mod_config =>
    if mod_config.log_all_sessions then
      (m.set_appidDebug (Option.map (AppIdDebug.set_enabled true) m.st.appidDebug)).call
        (Call.AppIdDebug_set_enabled true)
    else m
  | none => m

/-- Lines 165-180, one `let` per statement, in source order.  Line 177,
`delete HttpPatternMatchers::get_instance()`, is two steps: the call that yields the
instance and its deletion.  Lines 178-179 delete the debug object and null the pointer. -/
def tterm (m : Machine σ) : Machine σ :=
  let m := lifecycle Call.AppIdStatistics_cleanup (fun s => { s with stats_manager := false }) m
  let m := lifecycle Call.HostPortCache_terminate (fun s => { s with host_port_cache := false }) m
  let m := lifecycle Call.clean_appid_forecast (fun s => { s with forecast := false }) m
  let m := lifecycle Call.service_dns_host_clean (fun s => { s with dns_patterns := false }) m
  let m := lifecycle Call.service_ssl_clean (fun s => { s with ssl_patterns := false }) m
  let m := lifecycle Call.free_length_app_cache (fun s => { s with length_cache := false }) m
  let m := lifecycle Call.AppIdServiceState_clean (fun s => { s with service_state := false }) m
  let m := lifecycle Call.LuaDetectorManager_terminate
    (fun s => { s with lua_detectors := false }) m
  let m := lifecycle Call.AppIdDiscovery_release_plugins (fun s => { s with plugins := false }) m
  let m := lifecycle Call.HttpPatternMatchers_get_instance
    (fun s => { s with http_matchers := true }) m
  let m := lifecycle Call.delete_HttpPatternMatchers
    (fun s => { s with http_matchers := false }) m
  let m := m.call Call.delete_appidDebug
  m.set_appidDebug none

/-- Lines 182-196: count the packet (line 186); with a flow, run application discovery
on it (line 189) and, if the packet tracer is active, add the trace line (lines 191-192);
without a flow, count the packet as ignored (line 195).  The profiler object of line 184
is not modelled. -/
def eval (C : Collaborators σ Sess) (self : AppIdInspector) (p : Packet)
    (m : Machine σ) : Machine σ :=
  let m := inc_disco_peg DiscoveryPegs.PACKETS m
  match p.flow with
  | some flow =>
    let m := (m.set_world (C.do_application_discovery p self m.st.world)).call
      (Call.do_application_discovery p)
    let m := m.call Call.PacketTracer_active
    if C.active m.st.world.ext then add_appid_to_packet_trace C flow m else m
  | none => inc_disco_peg DiscoveryPegs.IGNORED_PACKETS m

/-- Lines 287-329.  The body between `#ifdef REMOVED_WHILE_NOT_IN_USE` and `#endif`
(lines 292-326) is not compiled: the macro is defined nowhere, and the fenced text could
not compile against the signature of line 287, whose parameters are unnamed.  What is
left is `return 0;` (line 328).  The three output slots are passed by pointer; the
embedding gives back the result together with the slots as the function leaves them. -/
def sslAppGroupIdLookup {Ssn : Type} (_ssnptr : Option Ssn) (_serverName _commonName : Option String)
    (service_id client_id payload_id : AppId) : Int × AppId × AppId × AppId :=
  (0, service_id, client_id, payload_id)

/-! ## Observations on the call log -/

/-- The calls appended to the log between two machine states. -/
def new_calls (before after : Machine σ) : List Call :=
  after.calls.drop before.calls.length

/-- The packets handed to `AppIdDiscovery::do_application_discovery`, in call order. -/
def discovered (cs : List Call) : List Packet :=
  cs.filterMap fun c =>
    match c with
    | Call.do_application_discovery p => some p
    | _ => none

/-- The pegs named in the calls to `AppIdPegCounts::inc_disco_peg`, in call order. -/
def peg_calls (cs : List Call) : List DiscoveryPegs :=
  cs.filterMap fun c =>
    match c with
    | Call.inc_disco_peg peg => some peg
    | _ => none

/-- The lines handed to `PacketTracer::log`, each with the mute handle used, in call order. -/
def trace_lines (cs : List Call) : List (TracerMute × String) :=
  cs.filterMap fun c =>
    match c with
    | Call.PacketTracer_log mute line => some (mute, line)
    | _ => none

/-- The calls `add_appid_to_packet_trace` makes, given what the session lookup returns. -/
def trace_calls (C : Collaborators σ Sess) (flow : Flow) (m : Machine σ) : List Call :=
  match C.get_appid_session flow m.st.world.ext with
  | none => [Call.get_appid_session flow]
  | some session =>
    [Call.get_appid_session flow, Call.get_application_ids,
     Call.get_application_name (C.get_application_ids session).1,
     Call.get_application_name (C.get_application_ids session).2.1,
     Call.get_application_name (C.get_application_ids session).2.2.1,
     Call.get_application_name (C.get_application_ids session).2.2.2,
     Call.PacketTracer_log m.st.appid_mute
       (fmt_appid_line
         (C.get_application_name m.st.world.ext (C.get_application_ids session).1)
         (C.get_application_ids session).1
         (C.get_application_name m.st.world.ext (C.get_application_ids session).2.1)
         (C.get_application_ids session).2.1
         (C.get_application_name m.st.world.ext (C.get_application_ids session).2.2.1)
         (C.get_application_ids session).2.2.1
         (C.get_application_name m.st.world.ext (C.get_application_ids session).2.2.2)
         (C.get_application_ids session).2.2.2)]

/-- Run `eval` on a sequence of packets, first packet first. -/
def eval_all (C : Collaborators σ Sess) (self : AppIdInspector) (ps : List Packet)
    (m : Machine σ) : Machine σ :=
  ps.foldl (fun acc p => eval C self p acc) m

/-- Frame condition on the collaborator: application discovery does not write the two
pegs `eval` maintains. -/
def KeepsPacketPegs (C : Collaborators σ Sess) : Prop :=
  ∀ (p : Packet) (self : AppIdInspector) (w : World σ),
    (C.do_application_discovery p self w).pegs DiscoveryPegs.PACKETS
        = w.pegs DiscoveryPegs.PACKETS ∧
    (C.do_application_discovery p self w).pegs DiscoveryPegs.IGNORED_PACKETS
        = w.pegs DiscoveryPegs.IGNORED_PACKETS

/-- Non-interference condition on the collaborator: what application discovery does to
the sessions, caches and tracer does not depend on the peg counters. -/
def PegBlind (C : Collaborators σ Sess) : Prop :=
  ∀ (p : Packet) (self : AppIdInspector) (w : World σ) (q : DiscoveryPegs → Nat),
    (C.do_application_discovery p self { w with pegs := q }).ext
      = (C.do_application_discovery p self w).ext

/-- Modelled from the spec: `AppIdDiscovery::do_application_discovery` is defined in
`appid_discovery.cc`, outside `appid_inspector.cc`; only its caller `eval` is embedded.
It is the spec's per-packet call (section 6, `on_packet`): it seeds from the caches, runs
the candidate detectors and merges their results into the flow identification state,
the caches and the forecast table (section 4.3).  Its statistics are "monotonic counters
(packets seen, packets ignored, per-axis match/exhaust counts) incremented by the
Discovery Engine", with "no influence on classification decisions" (section 4.5).
So the classification step `classify` is a parameter that sees the packet, the inspector
and the collaborator state but not the counters, and gives the new collaborator state
together with the counters to increment; each counter goes up by one per mention and is
never read or lowered. -/
def spec_do_application_discovery
    (classify : Packet → AppIdInspector → σ → σ × List DiscoveryPegs)
    (p : Packet) (self : AppIdInspector) (w : World σ) : World σ :=
  { pegs := fun k => w.pegs k + (classify p self w.ext).2.count k
    ext := (classify p self w.ext).1 }

/-- The collaborators `C`, with application discovery as the spec describes it. -/
def Collaborators.with_spec_discovery (C : Collaborators σ Sess)
    (classify : Packet → AppIdInspector → σ → σ × List DiscoveryPegs) :
    Collaborators σ Sess :=
  { C with do_application_discovery := spec_do_application_discovery classify }

/-- The state the init/teardown pair manages: which subsystems are initialised, and the
debug pointer. -/
def lifecycle_state (m : Machine σ) : Subsystems × Option AppIdDebug :=
  (m.st.subsystems, m.st.appidDebug)

/-- Every call in `l` that satisfies `P` stands before every call in `l` that satisfies `Q`. -/
def AllBefore (P Q : Call → Bool) (l : List Call) : Prop :=
  ∀ i j : Fin l.length, P (l.get i) = true → Q (l.get j) = true → i < j

instance (P Q : Call → Bool) (l : List Call) : Decidable (AllBefore P Q l) := by
  unfold AllBefore
  infer_instance

/-- Both `a` and `b` are called, and every call of `a` stands before every call of `b`. -/
def Before (a b : Call) (l : List Call) : Prop :=
  a ∈ l ∧ b ∈ l ∧ AllBefore (fun c => decide (c = a)) (fun c => decide (c = b)) l

instance (a b : Call) (l : List Call) : Decidable (Before a b l) := by
  unfold Before
  infer_instance

/-- The steps of `tinit` that register detectors: the built-in ones
(`AppIdDiscovery::initialize_plugins`) and the scripted ones
(`LuaDetectorManager::initialize`). -/
def registration_steps : List Call :=
  [ Call.AppIdDiscovery_initialize_plugins, Call.LuaDetectorManager_initialize ]

/-- The steps of `tinit` that finalize the registered patterns. -/
def finalize_steps : List Call :=
  [ Call.finalize_service_port_patterns, Call.finalize_client_port_patterns,
    Call.AppIdDiscovery_finalize_plugins, Call.HttpPatternMatchers_finalize ]

/-! ## A concrete instantiation, used to evaluate the embedding -/

/-- The collaborator state of the toy world: how many mute handles the tracer has handed
out and the lines it has written. -/
structure SampleExt where
  handles : Nat
  lines : List String
  deriving DecidableEq, Repr

/-- Collaborators over a toy world: the tracer hands out the handles 1, 2, 3, ... and is
always active, flow 7 has a session and every other flow has none, discovery bumps peg
`OTHER 0`. -/
def sample : Collaborators SampleExt (AppId × AppId × AppId × AppId) where
  get_mute := fun ext => (ext.handles + 1, { ext with handles := ext.handles + 1 })
  active := fun _ => true
  log := fun _ line ext => { ext with lines := ext.lines ++ [line] }
  do_application_discovery := fun _ _ w =>
    { w with pegs := fun k => if k = DiscoveryPegs.OTHER 0 then w.pegs k + 1 else w.pegs k }
  get_appid_session := fun flow _ => if flow = 7 then some (676, 1190, 0, -1) else none
  get_application_ids := fun s => s
  get_application_name := fun _ id =>
    if id = 676 then some "HTTP" else if id = 1190 then some "Firefox" else none
  new_AppIdDebug := ⟨false⟩

/-- An inspector configured with `log_all_sessions`. -/
def sample_inspector : AppIdInspector := ⟨⟨true⟩, ⟨some ⟨true⟩⟩⟩

/-- A fresh thread: zeroed pegs, nothing initialised, empty call log. -/
def fresh : Machine SampleExt :=
  ⟨⟨⟨fun _ => 0, ⟨0, []⟩⟩, 0, none, Subsystems.released⟩, []⟩

/-! ## Lemmas on the primitive steps -/

@[simp] theorem call_calls (c : Call) (m : Machine σ) : (m.call c).calls = m.calls ++ [c] := rfl

@[simp] theorem call_st (c : Call) (m : Machine σ) : (m.call c).st = m.st := rfl

@[simp] theorem set_world_calls (w : World σ) (m : Machine σ) :
    (m.set_world w).calls = m.calls := rfl

@[simp] theorem set_world_world (w : World σ) (m : Machine σ) :
    (m.set_world w).st.world = w := rfl

@[simp] theorem set_world_appid_mute (w : World σ) (m : Machine σ) :
    (m.set_world w).st.appid_mute = m.st.appid_mute := rfl

@[simp] theorem set_world_appidDebug (w : World σ) (m : Machine σ) :
    (m.set_world w).st.appidDebug = m.st.appidDebug := rfl

@[simp] theorem set_world_subsystems (w : World σ) (m : Machine σ) :
    (m.set_world w).st.subsystems = m.st.subsystems := rfl

@[simp] theorem inc_disco_peg_calls (peg : DiscoveryPegs) (m : Machine σ) :
    (inc_disco_peg peg m).calls = m.calls ++ [Call.inc_disco_peg peg] := rfl

@[simp] theorem inc_disco_peg_ext (peg : DiscoveryPegs) (m : Machine σ) :
    (inc_disco_peg peg m).st.world.ext = m.st.world.ext := rfl

@[simp] theorem inc_disco_peg_pegs (peg : DiscoveryPegs) (m : Machine σ) (k : DiscoveryPegs) :
    (inc_disco_peg peg m).st.world.pegs k
      = if k = peg then m.st.world.pegs k + 1 else m.st.world.pegs k := rfl

@[simp] theorem inc_disco_peg_appid_mute (peg : DiscoveryPegs) (m : Machine σ) :
    (inc_disco_peg peg m).st.appid_mute = m.st.appid_mute := rfl

@[simp] theorem inc_disco_peg_appidDebug (peg : DiscoveryPegs) (m : Machine σ) :
    (inc_disco_peg peg m).st.appidDebug = m.st.appidDebug := rfl

@[simp] theorem inc_disco_peg_subsystems (peg : DiscoveryPegs) (m : Machine σ) :
    (inc_disco_peg peg m).st.subsystems = m.st.subsystems := rfl

@[simp] theorem discovered_append (a b : List Call) :
    discovered (a ++ b) = discovered a ++ discovered b := by
  simp [discovered, List.filterMap_append]

@[simp] theorem trace_lines_append (a b : List Call) :
    trace_lines (a ++ b) = trace_lines a ++ trace_lines b := by
  simp [trace_lines, List.filterMap_append]

theorem new_calls_append (m m1 : Machine σ) (l : List Call) (h : m1.calls = m.calls ++ l) :
    new_calls m m1 = l := by
  simp [new_calls, h]

/-! ## `add_appid_to_packet_trace` -/

theorem add_appid_to_packet_trace_calls (C : Collaborators σ Sess) (flow : Flow)
    (m : Machine σ) :
    (add_appid_to_packet_trace C flow m).calls = m.calls ++ trace_calls C flow m := by
  unfold add_appid_to_packet_trace trace_calls
  cases h : C.get_appid_session flow m.st.world.ext with
  | none => simp [h]
  | some session =>
    rcases hids : C.get_application_ids session with ⟨a, b, c, d⟩
    simp [h, hids]

theorem add_appid_to_packet_trace_pegs (C : Collaborators σ Sess) (flow : Flow)
    (m : Machine σ) :
    (add_appid_to_packet_trace C flow m).st.world.pegs = m.st.world.pegs := by
  unfold add_appid_to_packet_trace
  cases h : C.get_appid_session flow m.st.world.ext with
  | none => simp [h]
  | some session =>
    rcases hids : C.get_application_ids session with ⟨a, b, c, d⟩
    simp [h, hids]

/-! ## `eval` -/

theorem eval_no_flow (C : Collaborators σ Sess) (self : AppIdInspector) (p : Packet)
    (m : Machine σ) (h : p.flow = none) :
    eval C self p m
      = inc_disco_peg DiscoveryPegs.IGNORED_PACKETS (inc_disco_peg DiscoveryPegs.PACKETS m) := by
  simp [eval, h]

theorem eval_calls (C : Collaborators σ Sess) (self : AppIdInspector) (p : Packet)
    (m : Machine σ) :
    (eval C self p m).calls = m.calls ++
      (match p.flow with
       | none => [Call.inc_disco_peg DiscoveryPegs.PACKETS,
                  Call.inc_disco_peg DiscoveryPegs.IGNORED_PACKETS]
       | some flow =>
         [Call.inc_disco_peg DiscoveryPegs.PACKETS, Call.do_application_discovery p,
          Call.PacketTracer_active] ++
         (if C.active
              (C.do_application_discovery p self
                (inc_disco_peg DiscoveryPegs.PACKETS m).st.world).ext then
            trace_calls C flow
              ((inc_disco_peg DiscoveryPegs.PACKETS m).set_world
                (C.do_application_discovery p self
                  (inc_disco_peg DiscoveryPegs.PACKETS m).st.world))
          else [])) := by
  cases h : p.flow with
  | none => simp [eval, h]
  | some flow =>
    simp only [eval, h]
    split
    · rename_i hact
      simp only [call_st, set_world_world] at hact
      simp [add_appid_to_packet_trace_calls, hact, trace_calls]
    · rename_i hact
      simp only [call_st, set_world_world] at hact
      simp [hact]

theorem eval_pegs (C : Collaborators σ Sess) (self : AppIdInspector) (p : Packet)
    (m : Machine σ) (k : DiscoveryPegs) :
    (eval C self p m).st.world.pegs k =
      match p.flow with
      | none => (inc_disco_peg DiscoveryPegs.IGNORED_PACKETS
                  (inc_disco_peg DiscoveryPegs.PACKETS m)).st.world.pegs k
      | some _ => (C.do_application_discovery p self
                    (inc_disco_peg DiscoveryPegs.PACKETS m).st.world).pegs k := by
  cases h : p.flow with
  | none => simp [eval, h]
  | some flow =>
    simp only [eval, h]
    split
    · simp [add_appid_to_packet_trace_pegs]
    · simp

theorem discovered_trace_calls (C : Collaborators σ Sess) (flow : Flow) (m : Machine σ) :
    discovered (trace_calls C flow m) = [] := by
  unfold trace_calls
  cases C.get_appid_session flow m.st.world.ext <;> simp [discovered]

theorem peg_calls_trace_calls (C : Collaborators σ Sess) (flow : Flow) (m : Machine σ) :
    peg_calls (trace_calls C flow m) = [] := by
  unfold trace_calls
  cases C.get_appid_session flow m.st.world.ext <;> simp [peg_calls]

theorem eval_peg_calls (C : Collaborators σ Sess) (self : AppIdInspector) (p : Packet)
    (m : Machine σ) :
    peg_calls (new_calls m (eval C self p m))
      = match p.flow with
        | some _ => [DiscoveryPegs.PACKETS]
        | none => [DiscoveryPegs.PACKETS, DiscoveryPegs.IGNORED_PACKETS] := by
  rw [new_calls_append m _ _ (eval_calls C self p m)]
  cases p.flow with
  | none => simp [peg_calls]
  | some flow =>
    have h1 : peg_calls [Call.inc_disco_peg DiscoveryPegs.PACKETS,
        Call.do_application_discovery p, Call.PacketTracer_active]
          = [DiscoveryPegs.PACKETS] := by
      simp [peg_calls]
    have h2 : peg_calls ([] : List Call) = [] := rfl
    have h3 : ∀ a b : List Call, peg_calls (a ++ b) = peg_calls a ++ peg_calls b := by
      intro a b
      simp [peg_calls, List.filterMap_append]
    simp only [h3, h1]
    split <;> simp [peg_calls_trace_calls, h2]

theorem eval_pegs_PACKETS (C : Collaborators σ Sess) (hC : KeepsPacketPegs C)
    (self : AppIdInspector) (p : Packet) (m : Machine σ) :
    (eval C self p m).st.world.pegs DiscoveryPegs.PACKETS
      = m.st.world.pegs DiscoveryPegs.PACKETS + 1 := by
  rw [eval_pegs]
  cases p.flow with
  | none => simp
  | some flow => simp [(hC p self _).1]

theorem eval_pegs_IGNORED_PACKETS (C : Collaborators σ Sess) (hC : KeepsPacketPegs C)
    (self : AppIdInspector) (p : Packet) (m : Machine σ) :
    (eval C self p m).st.world.pegs DiscoveryPegs.IGNORED_PACKETS
      = m.st.world.pegs DiscoveryPegs.IGNORED_PACKETS + (if p.flow.isNone then 1 else 0) := by
  rw [eval_pegs]
  cases p.flow with
  | none => simp
  | some flow => simp [(hC p self _).2]

theorem eval_all_pegs (C : Collaborators σ Sess) (hC : KeepsPacketPegs C)
    (self : AppIdInspector) (ps : List Packet) (m : Machine σ) :
    (eval_all C self ps m).st.world.pegs DiscoveryPegs.PACKETS
        = m.st.world.pegs DiscoveryPegs.PACKETS + ps.length ∧
    (eval_all C self ps m).st.world.pegs DiscoveryPegs.IGNORED_PACKETS
        = m.st.world.pegs DiscoveryPegs.IGNORED_PACKETS
          + (ps.filter fun p => p.flow.isNone).length := by
  induction ps generalizing m with
  | nil => simp [eval_all]
  | cons p ps ih =>
    have h := ih (eval C self p m)
    simp only [eval_all, List.foldl_cons] at h ⊢
    rw [h.1, h.2, eval_pegs_PACKETS C hC, eval_pegs_IGNORED_PACKETS C hC]
    constructor
    · simp only [List.length_cons]; omega
    · cases hp : p.flow
      · simp [List.filter_cons, hp]; omega
      · simp [List.filter_cons, hp]

/-! ## Claims on `eval` -/

/-- C1: one call of `eval` hands the packet to `do_application_discovery` exactly once,
and that packet only, when the packet has a flow, and never when it has none. -/
theorem eval_discovery_once_iff_flow (C : Collaborators σ Sess) (self : AppIdInspector)
    (p : Packet) (m : Machine σ) :
    discovered (new_calls m (eval C self p m))
      = match p.flow with
        | some _ => [p]
        | none => [] := by
  rw [new_calls_append m _ _ (eval_calls C self p m)]
  cases p.flow with
  | none => simp [discovered]
  | some flow =>
    have h1 : discovered [Call.inc_disco_peg DiscoveryPegs.PACKETS,
        Call.do_application_discovery p, Call.PacketTracer_active] = [p] := by
      simp [discovered]
    have h2 : discovered ([] : List Call) = [] := rfl
    simp only [discovered_append, h1]
    split <;> simp [discovered_trace_calls, h2]

/-- What the two pegs of `eval` hold when application discovery is known to leave them
alone: over any finite sequence of packets from zeroed counters `PACKETS` is the number
of packets and `IGNORED_PACKETS` the number of packets without a flow, and each single
`eval` adds one to `PACKETS` and one to `IGNORED_PACKETS` exactly when the packet has no
flow.  Whether discovery leaves them alone is not decided by `appid_inspector.cc`; the
peg calls `eval` itself makes are the last conjunct and need no such condition. -/
theorem eval_counts_under_frame (C : Collaborators σ Sess) (hC : KeepsPacketPegs C)
    (self : AppIdInspector) (ps : List Packet) (m : Machine σ)
    (hzero : m.st.world.pegs DiscoveryPegs.PACKETS = 0 ∧
      m.st.world.pegs DiscoveryPegs.IGNORED_PACKETS = 0) :
    ((eval_all C self ps m).st.world.pegs DiscoveryPegs.PACKETS = ps.length ∧
     (eval_all C self ps m).st.world.pegs DiscoveryPegs.IGNORED_PACKETS
        = (ps.filter fun p => p.flow.isNone).length) ∧
    ∀ (p : Packet) (m1 : Machine σ),
      (eval C self p m1).st.world.pegs DiscoveryPegs.PACKETS
        = m1.st.world.pegs DiscoveryPegs.PACKETS + 1 ∧
      (eval C self p m1).st.world.pegs DiscoveryPegs.IGNORED_PACKETS
        = m1.st.world.pegs DiscoveryPegs.IGNORED_PACKETS + (if p.flow.isNone then 1 else 0) ∧
      m1.st.world.pegs DiscoveryPegs.PACKETS
        ≤ (eval C self p m1).st.world.pegs DiscoveryPegs.PACKETS ∧
      m1.st.world.pegs DiscoveryPegs.IGNORED_PACKETS
        ≤ (eval C self p m1).st.world.pegs DiscoveryPegs.IGNORED_PACKETS ∧
      peg_calls (new_calls m1 (eval C self p m1))
        = match p.flow with
          | some _ => [DiscoveryPegs.PACKETS]
          | none => [DiscoveryPegs.PACKETS, DiscoveryPegs.IGNORED_PACKETS] := by
  refine ⟨?_, ?_⟩
  · have h := eval_all_pegs C hC self ps m
    rw [hzero.1, hzero.2] at h
    simpa using h
  · intro p m1
    rw [eval_pegs_PACKETS C hC, eval_pegs_IGNORED_PACKETS C hC]
    refine ⟨rfl, rfl, ?_, ?_, eval_peg_calls C self p m1⟩ <;> omega

/-- C3, as the source has it: a packet without a flow is not an error and reaches neither
discovery nor the packet tracer; `eval` makes exactly the two peg calls, which raise
`PACKETS` and `IGNORED_PACKETS` by one each, and changes nothing else: every other peg,
the collaborators' state, `appid_mute`, `appidDebug` and the subsystems stay as they were. -/
theorem eval_no_flow_only_counts (C : Collaborators σ Sess) (self : AppIdInspector)
    (p : Packet) (m : Machine σ) (h : p.flow = none) :
    new_calls m (eval C self p m)
        = [Call.inc_disco_peg DiscoveryPegs.PACKETS,
           Call.inc_disco_peg DiscoveryPegs.IGNORED_PACKETS] ∧
    discovered (new_calls m (eval C self p m)) = [] ∧
    trace_lines (new_calls m (eval C self p m)) = [] ∧
    (eval C self p m).st.world.pegs DiscoveryPegs.PACKETS
        = m.st.world.pegs DiscoveryPegs.PACKETS + 1 ∧
    (eval C self p m).st.world.pegs DiscoveryPegs.IGNORED_PACKETS
        = m.st.world.pegs DiscoveryPegs.IGNORED_PACKETS + 1 ∧
    (∀ n : Nat, (eval C self p m).st.world.pegs (DiscoveryPegs.OTHER n)
        = m.st.world.pegs (DiscoveryPegs.OTHER n)) ∧
    (eval C self p m).st.world.ext = m.st.world.ext ∧
    (eval C self p m).st.appid_mute = m.st.appid_mute ∧
    (eval C self p m).st.appidDebug = m.st.appidDebug ∧
    (eval C self p m).st.subsystems = m.st.subsystems := by
  have hc : new_calls m (eval C self p m)
      = [Call.inc_disco_peg DiscoveryPegs.PACKETS,
         Call.inc_disco_peg DiscoveryPegs.IGNORED_PACKETS] := by
    apply new_calls_append
    rw [eval_calls, h]
  rw [hc, eval_no_flow C self p m h]
  simp [discovered, trace_lines]

/-- Witness for C3: a packet without a flow on a fresh thread. -/
theorem eval_no_flow_only_counts_witness :
    (⟨none, [1, 2]⟩ : Packet).flow = none ∧
    new_calls fresh (eval sample sample_inspector ⟨none, [1, 2]⟩ fresh)
        = [Call.inc_disco_peg DiscoveryPegs.PACKETS,
           Call.inc_disco_peg DiscoveryPegs.IGNORED_PACKETS] ∧
    (eval sample sample_inspector ⟨none, [1, 2]⟩ fresh).st.world.ext = fresh.st.world.ext :=
  ⟨rfl, (eval_no_flow_only_counts sample sample_inspector ⟨none, [1, 2]⟩ fresh rfl).1,
   (eval_no_flow_only_counts sample sample_inspector
      ⟨none, [1, 2]⟩ fresh rfl).2.2.2.2.2.2.1⟩

/-- C3 as stated fails: on a fresh thread a packet without a flow does not leave every
counter unchanged; `PACKETS` and `IGNORED_PACKETS` both go from 0 to 1. -/
theorem eval_no_flow_changes_counters :
    (⟨none, []⟩ : Packet).flow = none ∧
    fresh.st.world.pegs DiscoveryPegs.PACKETS = 0 ∧
    (eval sample sample_inspector ⟨none, []⟩ fresh).st.world.pegs DiscoveryPegs.PACKETS = 1 ∧
    fresh.st.world.pegs DiscoveryPegs.IGNORED_PACKETS = 0 ∧
    (eval sample sample_inspector ⟨none, []⟩ fresh).st.world.pegs
      DiscoveryPegs.IGNORED_PACKETS = 1 ∧
    (eval sample sample_inspector ⟨none, []⟩ fresh).st.world.pegs ≠ fresh.st.world.pegs := by
  refine ⟨rfl, rfl, rfl, rfl, rfl, ?_⟩
  intro h
  have h1 := congrFun h DiscoveryPegs.PACKETS
  revert h1
  decide

theorem world_eq_of_ext (w1 w2 : World σ) (h : w1.ext = w2.ext) :
    w1 = { w2 with pegs := w1.pegs } := by
  cases w1; cases w2; simp_all

theorem PegBlind.ext_congr {C : Collaborators σ Sess} (hC : PegBlind C) (p : Packet)
    (self : AppIdInspector) (w1 w2 : World σ) (h : w1.ext = w2.ext) :
    (C.do_application_discovery p self w1).ext = (C.do_application_discovery p self w2).ext := by
  rw [world_eq_of_ext w1 w2 h]
  exact hC p self w2 w1.pegs

theorem trace_calls_congr (C : Collaborators σ Sess) (flow : Flow) (m1 m2 : Machine σ)
    (hext : m1.st.world.ext = m2.st.world.ext) (hmute : m1.st.appid_mute = m2.st.appid_mute) :
    trace_calls C flow m1 = trace_calls C flow m2 := by
  unfold trace_calls
  rw [hext, hmute]

/-- When application discovery does not let the counters steer what it does to the
collaborator state, `eval` makes the same outgoing calls from two states that differ only
in the peg counters. -/
theorem eval_new_calls_of_peg_blind (C : Collaborators σ Sess) (hC : PegBlind C)
    (self : AppIdInspector) (p : Packet) (m : Machine σ) (q : DiscoveryPegs → Nat) :
    new_calls (m.set_world { m.st.world with pegs := q })
        (eval C self p (m.set_world { m.st.world with pegs := q }))
      = new_calls m (eval C self p m) := by
  rw [new_calls_append _ _ _ (eval_calls C self p _),
    new_calls_append _ _ _ (eval_calls C self p m)]
  cases p.flow with
  | none => rfl
  | some flow =>
    have hd := hC.ext_congr p self
      (inc_disco_peg DiscoveryPegs.PACKETS
        (m.set_world { m.st.world with pegs := q })).st.world
      (inc_disco_peg DiscoveryPegs.PACKETS m).st.world rfl
    simp only [hd]
    congr 1
    split
    · exact trace_calls_congr C flow _ _ hd rfl
    · rfl

/-- Application discovery as the spec describes it is blind to the counters. -/
theorem spec_discovery_peg_blind (C : Collaborators σ Sess)
    (classify : Packet → AppIdInspector → σ → σ × List DiscoveryPegs) :
    PegBlind (C.with_spec_discovery classify) := by
  intro p self w q
  rfl

/-- Whatever application discovery does, the discovery calls `eval` makes depend on the
packet alone. -/
theorem eval_discovered_of_flow (C : Collaborators σ Sess) (self : AppIdInspector)
    (p : Packet) (m1 m2 : Machine σ) :
    discovered (new_calls m1 (eval C self p m1))
      = discovered (new_calls m2 (eval C self p m2)) := by
  rw [new_calls_append _ _ _ (eval_calls C self p m1),
    new_calls_append _ _ _ (eval_calls C self p m2)]
  cases p.flow with
  | none => rfl
  | some flow =>
    simp only [discovered_append]
    congr 1
    split <;> split <;> simp [discovered_trace_calls] <;> rfl

/-- C4: take two starting states of `eval` that differ only in the peg counters, and the
same packet.  Whatever application discovery does, the two runs make the same discovery
calls: the same decision, on the same packet.  With application discovery as the spec
describes it (it increments counters and never reads them), the two runs also hand the
same lines to the packet tracer. -/
theorem eval_ignores_pegs (C : Collaborators σ Sess)
    (classify : Packet → AppIdInspector → σ → σ × List DiscoveryPegs)
    (self : AppIdInspector) (p : Packet) (m : Machine σ) (q : DiscoveryPegs → Nat) :
    discovered (new_calls (m.set_world { m.st.world with pegs := q })
        (eval C self p (m.set_world { m.st.world with pegs := q })))
      = discovered (new_calls m (eval C self p m)) ∧
    trace_lines (new_calls (m.set_world { m.st.world with pegs := q })
        (eval (C.with_spec_discovery classify) self p
          (m.set_world { m.st.world with pegs := q })))
      = trace_lines (new_calls m (eval (C.with_spec_discovery classify) self p m)) := by
  refine ⟨eval_discovered_of_flow C self p _ _, ?_⟩
  rw [eval_new_calls_of_peg_blind _ (spec_discovery_peg_blind C classify) self p m q]

/-! ## Claim on `add_appid_to_packet_trace` -/

theorem fmt_appid_line_eq (n1 n2 n3 n4 : Option String) (a b c d : AppId) :
    fmt_appid_line n1 a n2 b n3 c n4 d
      = "AppID: " ++ ", ".intercalate
          ([("service", a, n1), ("client", b, n2), ("payload", c, n3), ("misc", d, n4)].map
            fun e => e.1 ++ ": " ++ e.2.2.getD "" ++ "(" ++ toString e.2.1 ++ ")") ++ "\n" := by
  have e1 : "AppID: service: " = "AppID: " ++ ("service" ++ ": ") := by decide
  have e2 : ", client: " = ", " ++ ("client" ++ ": ") := by decide
  have e3 : ", payload: " = ", " ++ ("payload" ++ ": ") := by decide
  have e4 : ", misc: " = ", " ++ ("misc" ++ ": ") := by decide
  have g : ∀ n : Option String, (match n with | some s => s | none => "") = n.getD "" := by
    intro n; cases n <;> rfl
  simp only [fmt_appid_line, fmt_name_id, g, e1, e2, e3, e4, List.map, String.intercalate,
    String.intercalate.go, String.append_assoc]

/-- C7: for a flow with a session, `add_appid_to_packet_trace` hands exactly one line to the
packet tracer; the line lists service, client, payload and misc in that order, each as the
name `get_application_name` gives for the id (the empty string when it gives none)
followed by the id.  For a flow without a session it hands over nothing.  Either way the
function returns. -/
theorem add_appid_to_packet_trace_one_line (C : Collaborators σ Sess) (flow : Flow)
    (m : Machine σ) :
    trace_lines (new_calls m (add_appid_to_packet_trace C flow m))
      = match C.get_appid_session flow m.st.world.ext with
        | none => []
        | some session =>
          [(m.st.appid_mute,
            "AppID: " ++ ", ".intercalate
              ([("service", (C.get_application_ids session).1),
                ("client", (C.get_application_ids session).2.1),
                ("payload", (C.get_application_ids session).2.2.1),
                ("misc", (C.get_application_ids session).2.2.2)].map
                fun e => e.1 ++ ": "
                  ++ (C.get_application_name m.st.world.ext e.2).getD ""
                  ++ "(" ++ toString e.2 ++ ")") ++ "\n")] := by
  rw [new_calls_append m _ _ (add_appid_to_packet_trace_calls C flow m)]
  unfold trace_calls
  cases C.get_appid_session flow m.st.world.ext with
  | none => simp [trace_lines]
  | some session =>
    simp only [trace_lines, List.filterMap_cons, List.filterMap_nil, fmt_appid_line_eq,
      List.map]

/-- The line written for the sample session of flow 7: two known names, two unknown. -/
theorem add_appid_to_packet_trace_sample :
    trace_lines (new_calls fresh (add_appid_to_packet_trace sample 7 fresh))
      = [(0, "AppID: service: HTTP(676), client: Firefox(1190), payload: (0), misc: (-1)\n")] := by
  decide

/-! ## `tinit` and `tterm` -/

@[simp] theorem set_appid_mute_calls (mute : TracerMute) (m : Machine σ) :
    (m.set_appid_mute mute).calls = m.calls := rfl

@[simp] theorem set_appidDebug_calls (d : Option AppIdDebug) (m : Machine σ) :
    (m.set_appidDebug d).calls = m.calls := rfl

@[simp] theorem lifecycle_calls (c : Call) (f : Subsystems → Subsystems) (m : Machine σ) :
    (lifecycle c f m).calls = m.calls ++ [c] := rfl

@[simp] theorem lifecycle_world (c : Call) (f : Subsystems → Subsystems) (m : Machine σ) :
    (lifecycle c f m).st.world = m.st.world := rfl

@[simp] theorem lifecycle_appid_mute (c : Call) (f : Subsystems → Subsystems) (m : Machine σ) :
    (lifecycle c f m).st.appid_mute = m.st.appid_mute := rfl

@[simp] theorem lifecycle_appidDebug (c : Call) (f : Subsystems → Subsystems) (m : Machine σ) :
    (lifecycle c f m).st.appidDebug = m.st.appidDebug := rfl

@[simp] theorem lifecycle_subsystems (c : Call) (f : Subsystems → Subsystems) (m : Machine σ) :
    (lifecycle c f m).st.subsystems = f m.st.subsystems := rfl

@[simp] theorem set_appidDebug_world (d : Option AppIdDebug) (m : Machine σ) :
    (m.set_appidDebug d).st.world = m.st.world := rfl

@[simp] theorem set_appidDebug_appid_mute (d : Option AppIdDebug) (m : Machine σ) :
    (m.set_appidDebug d).st.appid_mute = m.st.appid_mute := rfl

@[simp] theorem set_appidDebug_appidDebug (d : Option AppIdDebug) (m : Machine σ) :
    (m.set_appidDebug d).st.appidDebug = d := rfl

@[simp] theorem set_appidDebug_subsystems (d : Option AppIdDebug) (m : Machine σ) :
    (m.set_appidDebug d).st.subsystems = m.st.subsystems := rfl

@[simp] theorem set_appid_mute_world (mute : TracerMute) (m : Machine σ) :
    (m.set_appid_mute mute).st.world = m.st.world := rfl

@[simp] theorem set_appid_mute_appid_mute (mute : TracerMute) (m : Machine σ) :
    (m.set_appid_mute mute).st.appid_mute = mute := rfl

@[simp] theorem set_appid_mute_appidDebug (mute : TracerMute) (m : Machine σ) :
    (m.set_appid_mute mute).st.appidDebug = m.st.appidDebug := rfl

@[simp] theorem set_appid_mute_subsystems (mute : TracerMute) (m : Machine σ) :
    (m.set_appid_mute mute).st.subsystems = m.st.subsystems := rfl

theorem tinit_calls (C : Collaborators σ Sess) (self : AppIdInspector) (m : Machine σ) :
    (tinit C self m).calls = m.calls ++
      ([ Call.PacketTracer_get_mute, Call.AppIdStatistics_initialize_manager,
         Call.HostPortCache_initialize, Call.AppIdServiceState_initialize,
         Call.init_appid_forecast, Call.HttpPatternMatchers_get_instance,
         Call.AppIdDiscovery_initialize_plugins, Call.init_length_app_cache,
         Call.LuaDetectorManager_initialize, Call.finalize_service_port_patterns,
         Call.finalize_client_port_patterns, Call.AppIdDiscovery_finalize_plugins,
         Call.HttpPatternMatchers_finalize, Call.ssl_detector_process_patterns,
         Call.dns_host_detector_process_patterns, Call.new_AppIdDebug ] ++
       (match self.active_config.mod_config with
        | some mod_config =>
          if mod_config.log_all_sessions then [ Call.AppIdDebug_set_enabled true ] else []
        | none => [])) := by
  unfold tinit
  rcases self with ⟨cfg, ⟨_ | ⟨_ | _⟩⟩⟩ <;> simp

theorem tinit_new_calls (C : Collaborators σ Sess) (self : AppIdInspector) (m : Machine σ) :
    new_calls m (tinit C self m)
      = [ Call.PacketTracer_get_mute, Call.AppIdStatistics_initialize_manager,
          Call.HostPortCache_initialize, Call.AppIdServiceState_initialize,
          Call.init_appid_forecast, Call.HttpPatternMatchers_get_instance,
          Call.AppIdDiscovery_initialize_plugins, Call.init_length_app_cache,
          Call.LuaDetectorManager_initialize, Call.finalize_service_port_patterns,
          Call.finalize_client_port_patterns, Call.AppIdDiscovery_finalize_plugins,
          Call.HttpPatternMatchers_finalize, Call.ssl_detector_process_patterns,
          Call.dns_host_detector_process_patterns, Call.new_AppIdDebug ] ∨
    new_calls m (tinit C self m)
      = [ Call.PacketTracer_get_mute, Call.AppIdStatistics_initialize_manager,
          Call.HostPortCache_initialize, Call.AppIdServiceState_initialize,
          Call.init_appid_forecast, Call.HttpPatternMatchers_get_instance,
          Call.AppIdDiscovery_initialize_plugins, Call.init_length_app_cache,
          Call.LuaDetectorManager_initialize, Call.finalize_service_port_patterns,
          Call.finalize_client_port_patterns, Call.AppIdDiscovery_finalize_plugins,
          Call.HttpPatternMatchers_finalize, Call.ssl_detector_process_patterns,
          Call.dns_host_detector_process_patterns, Call.new_AppIdDebug,
          Call.AppIdDebug_set_enabled true ] := by
  rw [new_calls_append m _ _ (tinit_calls C self m)]
  rcases self with ⟨cfg, ⟨_ | ⟨_ | _⟩⟩⟩ <;> simp

/-- C5: among the steps of `tinit`, both detector-registration steps are taken, each of
them before every finalize step (so none after a finalize step), and each of the four
finalize steps is taken exactly once. -/
theorem tinit_registers_before_finalize (C : Collaborators σ Sess) (self : AppIdInspector)
    (m : Machine σ) :
    (∀ r ∈ registration_steps, r ∈ new_calls m (tinit C self m)) ∧
    AllBefore (fun c => decide (c ∈ registration_steps)) (fun c => decide (c ∈ finalize_steps))
      (new_calls m (tinit C self m)) ∧
    (∀ f ∈ finalize_steps, (new_calls m (tinit C self m)).count f = 1) := by
  rcases tinit_new_calls C self m with h | h <;> rw [h] <;> decide

/-- C9: in `tinit` the service port patterns are finalized before the client port patterns,
those before the HTTP pattern matchers, and those before both the SSL pass and the DNS
host pass. -/
theorem tinit_finalize_order (C : Collaborators σ Sess) (self : AppIdInspector)
    (m : Machine σ) :
    Before Call.finalize_service_port_patterns Call.finalize_client_port_patterns
      (new_calls m (tinit C self m)) ∧
    Before Call.finalize_client_port_patterns Call.HttpPatternMatchers_finalize
      (new_calls m (tinit C self m)) ∧
    Before Call.HttpPatternMatchers_finalize Call.ssl_detector_process_patterns
      (new_calls m (tinit C self m)) ∧
    Before Call.HttpPatternMatchers_finalize Call.dns_host_detector_process_patterns
      (new_calls m (tinit C self m)) := by
  rcases tinit_new_calls C self m with h | h <;> rw [h] <;> decide

/-- C10, as the source has it: the host-port cache and the service-state cache are
initialised before either detector-registration step; the payload-length cache is
initialised after the built-in detectors are registered and before the scripted ones are,
and like the other two before every finalize step. -/
theorem tinit_caches_order (C : Collaborators σ Sess) (self : AppIdInspector)
    (m : Machine σ) :
    (∀ r ∈ registration_steps,
      Before Call.HostPortCache_initialize r (new_calls m (tinit C self m)) ∧
      Before Call.AppIdServiceState_initialize r (new_calls m (tinit C self m))) ∧
    Before Call.AppIdDiscovery_initialize_plugins Call.init_length_app_cache
      (new_calls m (tinit C self m)) ∧
    Before Call.init_length_app_cache Call.LuaDetectorManager_initialize
      (new_calls m (tinit C self m)) ∧
    (∀ f ∈ finalize_steps,
      Before Call.HostPortCache_initialize f (new_calls m (tinit C self m)) ∧
      Before Call.AppIdServiceState_initialize f (new_calls m (tinit C self m)) ∧
      Before Call.init_length_app_cache f (new_calls m (tinit C self m))) := by
  rcases tinit_new_calls C self m with h | h <;> rw [h] <;> decide

/-- C10 as stated fails: on a fresh thread `tinit` calls `init_length_app_cache` after
`AppIdDiscovery::initialize_plugins`, not before it. -/
theorem tinit_length_cache_after_plugins :
    Before Call.AppIdDiscovery_initialize_plugins Call.init_length_app_cache
      (new_calls fresh (tinit sample sample_inspector fresh)) ∧
    ¬ Before Call.init_length_app_cache Call.AppIdDiscovery_initialize_plugins
      (new_calls fresh (tinit sample sample_inspector fresh)) := by
  decide

theorem tinit_subsystems (C : Collaborators σ Sess) (self : AppIdInspector) (m : Machine σ) :
    (tinit C self m).st.subsystems
      = { stats_manager := true, host_port_cache := true, service_state := true,
          forecast := true, http_matchers := true, plugins := true, length_cache := true,
          lua_detectors := true, ssl_patterns := true, dns_patterns := true } := by
  unfold tinit
  rcases self with ⟨cfg, ⟨_ | ⟨_ | _⟩⟩⟩ <;> rfl

theorem tinit_appidDebug (C : Collaborators σ Sess) (self : AppIdInspector) (m : Machine σ) :
    (tinit C self m).st.appidDebug
      = some (match self.active_config.mod_config with
              | some mod_config =>
                if mod_config.log_all_sessions then C.new_AppIdDebug.set_enabled true
                else C.new_AppIdDebug
              | none => C.new_AppIdDebug) := by
  unfold tinit
  rcases self with ⟨cfg, ⟨_ | ⟨_ | _⟩⟩⟩ <;> rfl

theorem tinit_appid_mute (C : Collaborators σ Sess) (self : AppIdInspector) (m : Machine σ) :
    (tinit C self m).st.appid_mute = (C.get_mute m.st.world.ext).1 := by
  unfold tinit
  rcases self with ⟨cfg, ⟨_ | ⟨_ | _⟩⟩⟩ <;> rfl

theorem tinit_world (C : Collaborators σ Sess) (self : AppIdInspector) (m : Machine σ) :
    (tinit C self m).st.world = { m.st.world with ext := (C.get_mute m.st.world.ext).2 } := by
  unfold tinit
  rcases self with ⟨cfg, ⟨_ | ⟨_ | _⟩⟩⟩ <;> rfl

theorem tterm_subsystems (m : Machine σ) :
    (tterm m).st.subsystems
      = { stats_manager := false, host_port_cache := false, service_state := false,
          forecast := false, http_matchers := false, plugins := false,
          length_cache := false, lua_detectors := false, ssl_patterns := false,
          dns_patterns := false } := rfl

theorem tterm_appidDebug (m : Machine σ) : (tterm m).st.appidDebug = none := rfl

theorem tterm_appid_mute (m : Machine σ) : (tterm m).st.appid_mute = m.st.appid_mute := by
  simp [tterm]

theorem tterm_world (m : Machine σ) : (tterm m).st.world = m.st.world := by
  simp [tterm]

/-- C6: from a state with no subsystem initialised and a null debug pointer, `tinit`
initialises all ten subsystems and the debug object, and `tterm` after it releases every
one of them and leaves the debug pointer null, so the lifecycle state (subsystems and
debug pointer) equals the starting state, and so do the peg counters; `tinit; tterm;
tinit` gives the same lifecycle state and peg counters as one `tinit`.  The tracer handle
`appid_mute` is no subsystem: after each `tinit` it holds what `PacketTracer::get_mute`
returned to that call. -/
theorem tinit_tterm_round_trip (C : Collaborators σ Sess) (self : AppIdInspector)
    (m : Machine σ) (hsub : m.st.subsystems = Subsystems.released)
    (hdbg : m.st.appidDebug = none) :
    (tinit C self m).st.subsystems = Subsystems.initialised ∧
    (tinit C self m).st.appidDebug.isSome = true ∧
    (tterm (tinit C self m)).st.subsystems = m.st.subsystems ∧
    (tterm (tinit C self m)).st.appidDebug = m.st.appidDebug ∧
    (tterm (tinit C self m)).st.world.pegs = m.st.world.pegs ∧
    (tterm (tinit C self m)).st.appid_mute = (C.get_mute m.st.world.ext).1 ∧
    (tinit C self (tterm (tinit C self m))).st.subsystems = (tinit C self m).st.subsystems ∧
    (tinit C self (tterm (tinit C self m))).st.appidDebug = (tinit C self m).st.appidDebug ∧
    (tinit C self (tterm (tinit C self m))).st.world.pegs = (tinit C self m).st.world.pegs ∧
    (tinit C self (tterm (tinit C self m))).st.appid_mute
      = (C.get_mute (C.get_mute m.st.world.ext).2).1 ∧
    lifecycle_state (tterm (tinit C self m)) = lifecycle_state m ∧
    lifecycle_state (tinit C self (tterm (tinit C self m)))
      = lifecycle_state (tinit C self m) := by
  refine ⟨tinit_subsystems C self m, ?_, ?_, ?_, ?_, ?_, ?_, ?_, ?_, ?_, ?_, ?_⟩
  · rw [tinit_appidDebug]; rfl
  · rw [tterm_subsystems, hsub]; rfl
  · rw [tterm_appidDebug, hdbg]
  · rw [tterm_world, tinit_world]
  · rw [tterm_appid_mute, tinit_appid_mute]
  · rw [tinit_subsystems, tinit_subsystems]
  · rw [tinit_appidDebug, tinit_appidDebug]
  · rw [tinit_world, tinit_world, tterm_world, tinit_world]
  · rw [tinit_appid_mute, tterm_world, tinit_world]
  · simp only [lifecycle_state]
    rw [tterm_subsystems, tterm_appidDebug, hsub, hdbg]; rfl
  · simp only [lifecycle_state]
    rw [tinit_subsystems, tinit_subsystems, tinit_appidDebug, tinit_appidDebug]

/-- Witness for C6: the fresh thread of the toy world. -/
theorem tinit_tterm_round_trip_witness :
    fresh.st.subsystems = Subsystems.released ∧ fresh.st.appidDebug = none ∧
    (tinit sample sample_inspector fresh).st.subsystems = Subsystems.initialised ∧
    (tterm (tinit sample sample_inspector fresh)).st.subsystems = fresh.st.subsystems ∧
    (tterm (tinit sample sample_inspector fresh)).st.appidDebug = fresh.st.appidDebug ∧
    lifecycle_state (tterm (tinit sample sample_inspector fresh)) = lifecycle_state fresh :=
  ⟨rfl, rfl, (tinit_tterm_round_trip sample sample_inspector fresh rfl rfl).1,
   (tinit_tterm_round_trip sample sample_inspector fresh rfl rfl).2.2.1,
   (tinit_tterm_round_trip sample sample_inspector fresh rfl rfl).2.2.2.1,
   (tinit_tterm_round_trip sample sample_inspector fresh rfl rfl).2.2.2.2.2.2.2.2.2.2.1⟩

/-! ## Claim on `sslAppGroupIdLookup` -/

/-- C8, as the source has it: with the lookup body compiled out, `sslAppGroupIdLookup`
returns 0 for every session, server name, common name and output slots, and writes none of
the three slots; so it never returns 1, and it returns 0 in particular when all three
slots hold `APP_ID_NONE`. -/
theorem sslAppGroupIdLookup_returns_zero {Ssn : Type} (ssnptr : Option Ssn)
    (serverName commonName : Option String) (service_id client_id payload_id : AppId) :
    (sslAppGroupIdLookup ssnptr serverName commonName service_id client_id payload_id).1 = 0 ∧
    (sslAppGroupIdLookup ssnptr serverName commonName service_id client_id payload_id).2
      = (service_id, client_id, payload_id) ∧
    (sslAppGroupIdLookup ssnptr serverName commonName service_id client_id payload_id).1 ≠ 1 := by
  refine ⟨rfl, rfl, ?_⟩
  show (0 : Int) ≠ 1
  decide

/-- C8 as stated fails: called with a service slot that holds an id other than
`APP_ID_NONE`, the function returns 0 although the service id it leaves in the slot
differs from `APP_ID_NONE`. -/
theorem sslAppGroupIdLookup_zero_with_id :
    (sslAppGroupIdLookup (none : Option Unit) (some "example.com") (some "example.com")
        (APP_ID_NONE + 1) APP_ID_NONE APP_ID_NONE).1 = 0 ∧
    (sslAppGroupIdLookup (none : Option Unit) (some "example.com") (some "example.com")
        (APP_ID_NONE + 1) APP_ID_NONE APP_ID_NONE).2.1 ≠ APP_ID_NONE := by
  decide

end Appid
